import Mathlib

/-
Verification of the AgentExecutor node
(packages/components/nodes/tools/AgentExecutorNode.ts).

The development shallowly embeds the class AgentExecutorLangchainTool.
External effects (execa process spawning, fs-extra, the dockerode exec
protocol, the ssh2 client) are modelled as oracles gathered in an `Env`
structure; the local filesystem contents are an explicit state (the list
of existing paths); every external call performed by a handler is also
recorded in an event trace, so that properties such as "no connection is
attempted" or "the temporary file is written before the interpreter
runs" are statable.  JavaScript truthiness on the string-or-absent
fields of the untyped parameter bag is modelled on `Option String`
(absent or empty means falsy).  JSON.stringify is modelled compactly:
key order, dropping of `undefined`-valued object fields, and string
escaping are preserved; indentation whitespace is elided.
-/

namespace AgentExecutorNode

/-- JSON-like values: the shapes handlers return and JSON.stringify consumes.
`undef` is JavaScript `undefined` (dropped when it is an object field). -/
inductive JVal where
  | null
  | undef
  | str (s : String)
  | num (n : Int)
  | bool (b : Bool)
  | arr (xs : List JVal)
  | obj (fields : List (String × JVal))

/-- Escape of one character inside a JSON string literal. -/
def jsonEscapeChar (c : Char) : String :=
  if c = '"' then "\\\""
  else if c = '\\' then "\\\\"
  else if c = '\n' then "\\n"
  else if c = '\r' then "\\r"
  else if c = '\t' then "\\t"
  else String.singleton c

/-- Escape of a JSON string body. -/
def jsonEscape (s : String) : String :=
  String.join (s.toList.map jsonEscapeChar)

/-- A quoted JSON string literal. -/
def quoteStr (s : String) : String :=
  "\"" ++ jsonEscape s ++ "\""

mutual

/-- Model of JSON.stringify: key order and dropping of undefined object
fields follow JavaScript; indentation whitespace is elided. -/
def stringify : JVal → String
  | .null => "null"
  | .undef => "null"
  | .str s => quoteStr s
  | .num n => toString n
  | .bool b => if b then "true" else "false"
  | .arr xs => "[" ++ stringifyItems xs ++ "]"
  | .obj fs => "\x7b" ++ stringifyFields fs ++ "\x7d"

/-- Comma-separated serialization of array elements. -/
def stringifyItems : List JVal → String
  | [] => ""
  | [x] => stringify x
  | x :: y :: rest => stringify x ++ "," ++ stringifyItems (y :: rest)

/-- Comma-separated serialization of object fields; fields whose value is
`undefined` are dropped, as JSON.stringify does. -/
def stringifyFields : List (String × JVal) → String
  | [] => ""
  | (_, .undef) :: rest => stringifyFields rest
  | (k, v) :: rest =>
      let tail := stringifyFields rest
      quoteStr k ++ ":" ++ stringify v ++ (if tail = "" then "" else "," ++ tail)

end

/-- The keys of an object value, in serialization order. -/
def jKeys : JVal → List String
  | .obj fs => fs.map Prod.fst
  | _ => []

/-- First field of an object with the given key (property lookup). -/
def jGet (v : JVal) (k : String) : Option JVal :=
  match v with
  | .obj fs => (fs.find? (fun f => f.fst == k)).map Prod.snd
  | _ => none

/-- A JavaScript value that is a string or an array of strings: the shape
of the `command` parameter (docker accepts both; the other handlers are
given strings by the wrapper). -/
inductive JsCmd where
  | str (s : String)
  | arr (xs : List String)

/-- JavaScript truthiness of an optional string field of the parameter
bag: absent (`undefined`) and the empty string are falsy. -/
def truthyS : Option String → Bool
  | none => false
  | some s => s != ""

/-- JavaScript truthiness of an optional command value: an array is
always truthy (even `[]`), a string is truthy iff nonempty. -/
def truthyCmd : Option JsCmd → Bool
  | none => false
  | some (.str s) => s != ""
  | some (.arr _) => true

/-- The untyped `actionParams` bag, with every field the handlers
destructure; absent fields are `none` (JavaScript `undefined`). -/
structure ActionParams where
  operation : Option String := none
  path : Option String := none
  content : Option String := none
  encoding : Option String := none
  command : Option JsCmd := none
  args : Option (List String) := none
  options : Option (List (String × JVal)) := none
  containerId : Option String := none
  listAll : Option Bool := none
  host : Option String := none
  port : Option Int := none
  username : Option String := none
  password : Option String := none
  privateKey : Option String := none
  scriptContent : Option String := none
  scriptPath : Option String := none

/-- Serialization of an optional string JavaScript value (`undefined`
when absent). -/
def jOptStr : Option String → JVal
  | none => .undef
  | some s => .str s

/-- Serialization of an optional number JavaScript value (`undefined`
when absent). -/
def jOptNum : Option Int → JVal
  | none => .undef
  | some n => .num n

/-- Serialization of an optional command value. -/
def jOptCmd : Option JsCmd → JVal
  | none => .undef
  | some (.str s) => .str s
  | some (.arr xs) => .arr (xs.map JVal.str)

/-- Serialization of an optional boolean JavaScript value. -/
def jOptBool : Option Bool → JVal
  | none => .undef
  | some b => .bool b

/-- The parameter bag as the JSON value that is echoed back in the error
result (absent fields serialize as `undefined` and are dropped). -/
def ActionParams.toJVal (p : ActionParams) : JVal :=
  .obj [("operation", jOptStr p.operation), ("path", jOptStr p.path),
    ("content", jOptStr p.content), ("encoding", jOptStr p.encoding),
    ("command", jOptCmd p.command),
    ("args", match p.args with | none => .undef | some xs => .arr (xs.map JVal.str)),
    ("options", match p.options with | none => .undef | some fs => .obj fs),
    ("containerId", jOptStr p.containerId), ("listAll", jOptBool p.listAll),
    ("host", jOptStr p.host), ("port", jOptNum p.port),
    ("username", jOptStr p.username), ("password", jOptStr p.password),
    ("privateKey", jOptStr p.privateKey),
    ("scriptContent", jOptStr p.scriptContent), ("scriptPath", jOptStr p.scriptPath)]

/-- An error produced by an external library or the runtime (as observed
through `error.message` / `error.stack`). -/
structure EnvErr where
  message : String
  stack : Option String := none

/-- A JavaScript exception in flight: either a `new Error(msg)` thrown by
the handler code itself, or an error propagated from an external call.
The runtime-generated stack text of handler-thrown errors is not
modelled. -/
inductive JsError where
  | thrown (message : String)
  | env (e : EnvErr)

/-- The `message` property of an error. -/
def JsError.message : JsError → String
  | .thrown m => m
  | .env e => e.message

/-- The `stack` property of an error, as a JSON value (`undefined` when
not modelled). -/
def JsError.stackJ : JsError → JVal
  | .thrown _ => .undef
  | .env e => jOptStr e.stack

/-- A resolved execa result (execa resolves only on exit code 0 with
default options, so `failed` is false there, but the fields are kept as
execa reports them). -/
structure ExecaOk where
  stdout : String
  stderr : String
  exitCode : Int
  failed : Bool
  timedOut : Bool
  isCanceled : Bool

/-- An execa rejection: non-zero exit, timeout, cancellation or
inability to start all reject with an error object carrying these
fields (absent on foreign errors). -/
structure ExecaErr where
  stdout : Option String := none
  stderr : Option String := none
  exitCode : Option Int := none
  failed : Bool := true
  timedOut : Bool := false
  isCanceled : Bool := false
  shortMessage : Option String := none
  message : String := ""
  stack : Option String := none

/-- Outcome of one `await execa(...)` call. -/
inductive ExecaOutcome where
  | ok (r : ExecaOk)
  | err (e : ExecaErr)

/-- The message field the handlers store: `error.shortMessage ||
error.message` (falls through on absent or empty shortMessage). -/
def execaErrMsg (e : ExecaErr) : String :=
  match e.shortMessage with
  | some s => if s != "" then s else e.message
  | none => e.message

/-- Behaviour of the one dockerode exec interaction an invocation
performs: creation, start, the hijacked stream, and the post-stream
inspect call. -/
inductive StreamOutcome where
  | errored (pre : List String) (e : EnvErr)
  | ended (chunks : List String)

/-- Oracle for the docker exec protocol of one invocation. -/
structure DockerExecEnv where
  createErr : Option EnvErr := none
  startErr : Option EnvErr := none
  noStream : Bool := false
  stream : StreamOutcome := .ended []
  inspectExec : Except EnvErr (Option Int) := .ok (some 0)

/-- Behaviour of the one ssh2 connection an invocation opens. -/
inductive SshBehavior where
  | connectError (e : EnvErr)
  | execError (e : EnvErr)
  | closed (stdoutChunks : List String) (stderrChunks : List String)
      (code : Option Int) (signal : Option String)

/-- The external world one invocation interacts with. -/
structure Env where
  execa : JsCmd → List String → List (String × JVal) → ExecaOutcome
  readFile : String → String → Except EnvErr String
  writeFile : String → String → String → Option EnvErr
  remove : String → Option EnvErr
  readdir : String → Except EnvErr (List String)
  listContainers : Bool → Except EnvErr JVal
  inspectContainer : String → Except EnvErr JVal
  docker : DockerExecEnv := {}
  ssh : SshBehavior := .closed [] [] (some 0) none
  now : Nat := 0

/-- The filesystem state: the list of existing paths. -/
def FS := List String

/-- Path existence (fs.pathExists). -/
def fsHas (st : FS) (p : String) : Bool :=
  List.contains st p

/-- State after a successful write of `p`. -/
def fsAdd (st : FS) (p : String) : FS :=
  if fsHas st p then st else p :: st

/-- State after a successful removal of `p`. -/
def fsDel (st : FS) (p : String) : FS :=
  List.filter (fun q => q != p) st

/-- One external call performed by a handler, as recorded in the trace. -/
inductive Event where
  | fsWrite (path : String) (content : String)
  | fsRemove (path : String)
  | fsRead (path : String)
  | fsList (path : String)
  | spawn (cmd : JsCmd) (args : List String)
  | dockerList
  | dockerInspect (id : String)
  | dockerExecCreate (id : String) (cmd : List String)
  | dockerExecStart
  | dockerStreamEnd
  | dockerInspectExec
  | sshConnect (host : String) (port : Int)

/-- Whether a trace contains an ssh connection attempt. -/
def hasSshConnect (tr : List Event) : Bool :=
  tr.any (fun ev => match ev with | .sshConnect _ _ => true | _ => false)

/-- Whether a trace contains a filesystem write. -/
def hasFsWrite (tr : List Event) : Bool :=
  tr.any (fun ev => match ev with | .fsWrite _ _ => true | _ => false)

/-- Whether a trace contains a process spawn. -/
def hasSpawn (tr : List Event) : Bool :=
  tr.any (fun ev => match ev with | .spawn _ _ => true | _ => false)

/-- The execa options object `{ ...options, windowsHide: true }`: the
user options with `windowsHide` overridden to true. -/
def execaOptions (opts : List (String × JVal)) : List (String × JVal) :=
  (opts.filter (fun f => f.fst != "windowsHide")) ++ [("windowsHide", JVal.bool true)]

/-- Embedding of `handleExecuteCommand` (source lines 82-103): validates
`command`, awaits execa, and catches any rejection into a data object
that carries the rejection fields plus an `error` message. -/
def handleExecuteCommand (env : Env) (p : ActionParams) :
    Except JsError JVal × List Event :=
  if !(truthyCmd p.command) then
    (.error (.thrown "Missing \"command\" parameter for executeCommand"), [])
  else
    let cmd := p.command.getD (.str "")
    let args := p.args.getD []
    let opts := execaOptions (p.options.getD [])
    match env.execa cmd args opts with
    | .ok r =>
        (.ok (.obj [("stdout", .str r.stdout), ("stderr", .str r.stderr),
          ("exitCode", .num r.exitCode), ("failed", .bool r.failed),
          ("timedOut", .bool r.timedOut), ("isCanceled", .bool r.isCanceled)]),
         [.spawn cmd args])
    | .err e =>
        (.ok (.obj [("stdout", jOptStr e.stdout), ("stderr", jOptStr e.stderr),
          ("exitCode", jOptNum e.exitCode), ("failed", .bool e.failed),
          ("timedOut", .bool e.timedOut), ("isCanceled", .bool e.isCanceled),
          ("error", .str (execaErrMsg e))]),
         [.spawn cmd args])

/-- Embedding of `handleFilesystem` (source lines 105-129). -/
def handleFilesystem (env : Env) (st : FS) (p : ActionParams) :
    Except JsError JVal × FS × List Event :=
  if !(truthyS p.operation) || !(truthyS p.path) then
    (.error (.thrown "Missing \"operation\" or \"path\" for filesystem action"), st, [])
  else
    let path := p.path.getD ""
    let enc := p.encoding.getD "utf8"
    match p.operation.getD "" with
    | "readFile" =>
        (match env.readFile path enc with
         | .ok s => (.ok (.str s), st, [.fsRead path])
         | .error e => (.error (.env e), st, [.fsRead path]))
    | "writeFile" =>
        (match p.content with
         | none => (.error (.thrown "Missing \"content\" for writeFile"), st, [])
         | some c =>
            match env.writeFile path c enc with
            | some e => (.error (.env e), st, [.fsWrite path c])
            | none =>
                (.ok (.obj [("success", .bool true), ("path", .str path),
                  ("message", .str ("File " ++ path ++ " written successfully."))]),
                 fsAdd st path, [.fsWrite path c]))
    | "deleteFile" =>
        (match env.remove path with
         | some e => (.error (.env e), st, [.fsRemove path])
         | none =>
            (.ok (.obj [("success", .bool true), ("path", .str path),
              ("message", .str ("Path " ++ path ++ " deleted successfully."))]),
             fsDel st path, [.fsRemove path]))
    | "listDir" =>
        (match env.readdir path with
         | .ok names => (.ok (.arr (names.map JVal.str)), st, [.fsList path])
         | .error e => (.error (.env e), st, [.fsList path]))
    | "pathExists" =>
        (.ok (.obj [("exists", .bool (fsHas st path)), ("path", .str path)]), st, [])
    | op =>
        (.error (.thrown ("Unsupported filesystem operation: " ++ op)), st, [])

/-- Removal of leading whitespace characters from a character list. -/
def dropLeadingWs : List Char → List Char
  | [] => []
  | c :: cs => if c.isWhitespace then dropLeadingWs cs else c :: cs

/-- Model of the JavaScript String.prototype.trim used on the collected
stream output: strips leading and trailing whitespace. -/
def jsTrim (s : String) : String :=
  String.mk ((dropLeadingWs ((dropLeadingWs s.toList).reverse)).reverse)

/-- Helper for the space split: walks the characters, cutting at each
space (the accumulator holds the current piece reversed). -/
def splitSpaceAux : List Char → List Char → List String
  | [], acc => [String.mk acc.reverse]
  | ch :: cs, acc =>
      if ch = ' ' then String.mk acc.reverse :: splitSpaceAux cs []
      else splitSpaceAux cs (ch :: acc)

/-- Model of the JavaScript String.prototype.split on a single space, as
used to turn a string command into an argument array (the empty string
splits to a singleton empty piece, as in JavaScript). -/
def jsSplitSpace (s : String) : List String :=
  splitSpaceAux s.toList []

/-- The docker exec command normalization: an array is passed through, a
string is split on spaces. -/
def cmdToArr : JsCmd → List String
  | .arr xs => xs
  | .str s => jsSplitSpace s

/-- The placeholder the docker handler stores in `stderr` on a non-zero
exit (stdout and stderr are combined on one stream, so no true stderr
text is available). -/
def dockerStderrPlaceholder : String :=
  "Error likely occurred (see output, exit code for details)"

/-- Embedding of `handleDocker` (source lines 131-188). -/
def handleDocker (env : Env) (p : ActionParams) :
    Except JsError JVal × List Event :=
  if !(truthyS p.operation) then
    (.error (.thrown "Missing \"operation\" for docker action"), [])
  else
    match p.operation.getD "" with
    | "listContainers" =>
        (match env.listContainers (p.listAll.getD false) with
         | .ok v => (.ok v, [.dockerList])
         | .error e => (.error (.env e), [.dockerList]))
    | "inspectContainer" =>
        if !(truthyS p.containerId) then
          (.error (.thrown "Missing \"containerId\" for inspectContainer"), [])
        else
          (match env.inspectContainer (p.containerId.getD "") with
           | .ok v => (.ok v, [.dockerInspect (p.containerId.getD "")])
           | .error e => (.error (.env e), [.dockerInspect (p.containerId.getD "")]))
    | "execInContainer" =>
        if !(truthyS p.containerId) || !(truthyCmd p.command) then
          (.error (.thrown "Missing \"containerId\" or \"command\" for execInContainer"), [])
        else
          let cid := p.containerId.getD ""
          let cmdArr := cmdToArr (p.command.getD (.str ""))
          (match env.docker.createErr with
           | some e => (.error (.env e), [.dockerExecCreate cid cmdArr])
           | none =>
              match env.docker.startErr with
              | some e =>
                  (.error (.env e), [.dockerExecCreate cid cmdArr, .dockerExecStart])
              | none =>
                  if env.docker.noStream then
                    (.error (.thrown "Stream not available for exec"),
                     [.dockerExecCreate cid cmdArr, .dockerExecStart])
                  else
                    match env.docker.stream with
                    | .errored _ e =>
                        (.error (.env e),
                         [.dockerExecCreate cid cmdArr, .dockerExecStart])
                    | .ended chunks =>
                        match env.docker.inspectExec with
                        | .error e =>
                            (.error (.env e),
                             [.dockerExecCreate cid cmdArr, .dockerExecStart,
                              .dockerStreamEnd, .dockerInspectExec])
                        | .ok codeOpt =>
                            (.ok (.obj [("output", .str (jsTrim (String.join chunks))),
                              ("stderr", .str (if codeOpt != some 0 then dockerStderrPlaceholder else "")),
                              ("exitCode", jOptNum codeOpt)]),
                             [.dockerExecCreate cid cmdArr, .dockerExecStart,
                              .dockerStreamEnd, .dockerInspectExec]))
    | op =>
        (.error (.thrown ("Unsupported docker operation: " ++ op)), [])

/-- Embedding of `handleSsh` (source lines 190-225): validation, then one
connection whose ready/error/exec/close behaviour the environment
chooses. -/
def handleSsh (env : Env) (p : ActionParams) :
    Except JsError JVal × List Event :=
  if !(truthyS p.host) || !(truthyS p.username)
      || (!(truthyS p.password) && !(truthyS p.privateKey))
      || !(truthyCmd p.command) then
    (.error (.thrown "Missing required SSH parameters (host, username, auth method, command)"), [])
  else
    let ev := Event.sshConnect (p.host.getD "") (p.port.getD 22)
    match env.ssh with
    | .connectError e => (.error (.env e), [ev])
    | .execError e => (.error (.env e), [ev])
    | .closed outChunks errChunks code signal =>
        (.ok (.obj [("output", .str (jsTrim (String.join outChunks))),
          ("stderr", .str (jsTrim (String.join errChunks))),
          ("code", match code with | none => .null | some n => .num n),
          ("signal", jOptStr signal)]),
         [ev])

/-- The timestamp-derived temporary path for inline script content. -/
def tempPath (now : Nat) : String :=
  "/tmp/flowise_python_script_" ++ toString now ++ ".py"

/-- The data object the python handler returns when execa resolves. -/
def pyOkObj (r : ExecaOk) : JVal :=
  .obj [("stdout", .str r.stdout), ("stderr", .str r.stderr),
    ("exitCode", .num r.exitCode)]

/-- The data object the python handler returns when execa rejects. -/
def pyErrObj (e : ExecaErr) : JVal :=
  .obj [("stdout", jOptStr e.stdout), ("stderr", jOptStr e.stderr),
    ("exitCode", jOptNum e.exitCode), ("error", .str (execaErrMsg e))]

/-- The try/catch around the interpreter run: every execa outcome is
returned as data, never rethrown. -/
def pyRunResult (oc : ExecaOutcome) : JVal :=
  match oc with
  | .ok r => pyOkObj r
  | .err e => pyErrObj e

/-- Embedding of `handlePythonScript` (source lines 227-257): inline
content is materialized to a timestamp-named temp file, the interpreter
runs, and the finally-block removes the temp file, swallowing cleanup
errors. -/
def handlePythonScript (env : Env) (st : FS) (p : ActionParams) :
    Except JsError JVal × FS × List Event :=
  if truthyS p.scriptContent then
    let path := tempPath env.now
    let c := p.scriptContent.getD ""
    match env.writeFile path c "utf8" with
    | some e => (.error (.env e), st, [.fsWrite path c])
    | none =>
        let st1 := fsAdd st path
        let args := p.args.getD []
        let res := pyRunResult (env.execa (.str "python3") (path :: args) [])
        match env.remove path with
        | some _ =>
            (.ok res, st1,
             [.fsWrite path c, .spawn (.str "python3") (path :: args), .fsRemove path])
        | none =>
            (.ok res, fsDel st1 path,
             [.fsWrite path c, .spawn (.str "python3") (path :: args), .fsRemove path])
  else if !(truthyS p.scriptPath) then
    (.error (.thrown "Missing \"scriptContent\" (direct script) or \"scriptPath\" for pythonScript action"), st, [])
  else
    let path := p.scriptPath.getD ""
    let args := p.args.getD []
    (.ok (pyRunResult (env.execa (.str "python3") (path :: args) [])), st,
     [.spawn (.str "python3") (path :: args)])

/-- The switch of `_call` (source lines 48-68): routes by `actionType`;
the default branch throws. The thrown error of a handler propagates. -/
def dispatch (env : Env) (st : FS) (actionType : String) (p : ActionParams) :
    Except JsError JVal × FS × List Event :=
  match actionType with
  | "filesystem" => handleFilesystem env st p
  | "executeCommand" =>
      let r := handleExecuteCommand env p
      (r.1, st, r.2)
  | "docker" =>
      let r := handleDocker env p
      (r.1, st, r.2)
  | "ssh" =>
      let r := handleSsh env p
      (r.1, st, r.2)
  | "pythonScript" => handlePythonScript env st p
  | other => (.error (.thrown ("Unsupported actionType: " ++ other)), st, [])

/-- The error-shaped result the catch block of `_call` builds (source
lines 73-78): error message first, diagnostic detail, then the request
kind and the echoed parameters. -/
def errObj (e : JsError) (actionType : String) (p : ActionParams) : JVal :=
  .obj [("error", .str e.message), ("details", e.stackJ),
    ("actionType", .str actionType), ("actionParams", p.toJVal)]

/-- The try-block of `_call`: dispatch then stringify; a handler throw
propagates as an exception. -/
def callTry (env : Env) (st : FS) (actionType : String) (p : ActionParams) :
    Except JsError String :=
  match (dispatch env st actionType p).1 with
  | .ok v => .ok (stringify v)
  | .error e => .error e

/-- Embedding of `_call` (source lines 43-80): the try/catch makes the
entry point total — every exception is converted into the serialized
error-shaped result. -/
def call (env : Env) (st : FS) (actionType : String) (p : ActionParams) : String :=
  match callTry env st actionType p with
  | .ok s => s
  | .error e => stringify (errObj e actionType p)

/-! Concrete fixtures for witnesses and counterexamples. -/

/-- A quiescent environment: every external call succeeds blandly. -/
def env0 : Env :=
  { execa := fun _ _ _ => .ok ⟨"", "", 0, false, false, false⟩,
    readFile := fun _ _ => .ok "",
    writeFile := fun _ _ _ => none,
    remove := fun _ => none,
    readdir := fun _ => .ok [],
    listContainers := fun _ => .ok (.arr []),
    inspectContainer := fun _ => .error ⟨"no such container", none⟩ }

/-! Helper lemmas shared by the claim theorems. -/

/-- A path is never present after it is filtered out of the state. -/
theorem fsHas_fsDel (st : FS) (p : String) : fsHas (fsDel st p) p = false := by
  simp [fsHas, fsDel, List.contains]

/-- A falsy optional string field: absent or the empty string. -/
def falsyS (o : Option String) : Prop := o = none ∨ o = some ""

/-- Falsy fields are exactly the ones JavaScript truthiness rejects. -/
theorem truthyS_falsy {o : Option String} (h : falsyS o) : truthyS o = false := by
  rcases h with rfl | rfl <;> rfl

/-- A present nonempty string field is truthy. -/
theorem truthyS_some_of_ne {c : String} (h : c ≠ "") : truthyS (some c) = true := by
  simp [truthyS, h]

/-- The empty string is falsy. -/
theorem truthyS_some_empty : truthyS (some "") = false := rfl

/-- An absent field is falsy. -/
theorem truthyS_none : truthyS none = false := rfl

/-! Claim theorems. -/

/-- C1: for every input to `_call` — any action kind string, including
unrecognized ones, any parameter bag, any behaviour of the external
world — the call returns a serialized string: either the stringified
handler result, or, when the selected handler (or the default branch)
throws, the stringified error-shaped object carrying the failure
message, the diagnostic detail, the request kind and the echoed
parameters. No exception passes the boundary. -/
theorem C1_call_never_throws (env : Env) (st : FS) (actionType : String)
    (p : ActionParams) :
    (∃ v, (dispatch env st actionType p).1 = Except.ok v ∧
       call env st actionType p = stringify v) ∨
    (∃ e, (dispatch env st actionType p).1 = Except.error e ∧
       call env st actionType p = stringify (errObj e actionType p) ∧
       jGet (errObj e actionType p) "error" = some (.str e.message) ∧
       jGet (errObj e actionType p) "details" = some e.stackJ ∧
       jGet (errObj e actionType p) "actionType" = some (.str actionType) ∧
       jGet (errObj e actionType p) "actionParams" = some p.toJVal) := by
  cases h : (dispatch env st actionType p).1 with
  | ok v => exact Or.inl ⟨v, rfl, by simp [call, callTry, h]⟩
  | error e =>
      exact Or.inr ⟨e, rfl, by simp [call, callTry, h], rfl, rfl, rfl, rfl⟩

/-- C6: a remote-shell request that supplies neither password nor
privateKey fails with the validation error and the trace shows no
connection attempt. -/
theorem C6_ssh_missing_auth_no_connect (env : Env) (p : ActionParams)
    (hpw : p.password = none) (hpk : p.privateKey = none) :
    (handleSsh env p).1 =
      Except.error (.thrown "Missing required SSH parameters (host, username, auth method, command)") ∧
    hasSshConnect (handleSsh env p).2 = false := by
  simp [handleSsh, truthyS, hpw, hpk, hasSshConnect]

/-- A concrete remote-shell request with no authentication material. -/
def pSshNoAuth : ActionParams :=
  { host := some "examplehost", username := some "alice",
    command := some (.str "ls") }

/-- Witness for C6: host, username and command are present, but no
password and no private key — validation error, no connect call. -/
theorem C6_ssh_missing_auth_no_connect_witness :
    (handleSsh env0 pSshNoAuth).1 =
      Except.error (.thrown "Missing required SSH parameters (host, username, auth method, command)") ∧
    hasSshConnect (handleSsh env0 pSshNoAuth).2 = false :=
  C6_ssh_missing_auth_no_connect env0 pSshNoAuth rfl rfl

/-- C7: a script request that supplies neither scriptContent nor
scriptPath fails with the validation error before any process is
spawned and before any temporary file is written: the state is
untouched and the trace is empty. -/
theorem C7_script_missing_input (env : Env) (st : FS) (p : ActionParams)
    (h1 : p.scriptContent = none) (h2 : p.scriptPath = none) :
    (handlePythonScript env st p).1 =
      Except.error (.thrown "Missing \"scriptContent\" (direct script) or \"scriptPath\" for pythonScript action") ∧
    (handlePythonScript env st p).2.1 = st ∧
    (handlePythonScript env st p).2.2 = [] ∧
    hasSpawn (handlePythonScript env st p).2.2 = false ∧
    hasFsWrite (handlePythonScript env st p).2.2 = false := by
  simp [handlePythonScript, truthyS, h1, h2, hasSpawn, hasFsWrite]

/-- Witness for C7: the empty parameter bag. -/
theorem C7_script_missing_input_witness :
    (handlePythonScript env0 [] {}).1 =
      Except.error (.thrown "Missing \"scriptContent\" (direct script) or \"scriptPath\" for pythonScript action") ∧
    (handlePythonScript env0 [] ({} : ActionParams)).2.1 = [] ∧
    (handlePythonScript env0 [] ({} : ActionParams)).2.2 = [] ∧
    hasSpawn (handlePythonScript env0 [] ({} : ActionParams)).2.2 = false ∧
    hasFsWrite (handlePythonScript env0 [] ({} : ActionParams)).2.2 = false :=
  C7_script_missing_input env0 [] {} rfl rfl

/-- The execa rejection produced by an executable that runs and exits
with status 1 (as execa reports it: fields populated, failed true). -/
def execaExit1 : ExecaErr :=
  { stdout := some "", stderr := some "", exitCode := some 1,
    failed := true, timedOut := false, isCanceled := false,
    shortMessage := some "Command failed with exit code 1: false",
    message := "Command failed with exit code 1: false" }

/-- An environment whose process spawns reject like a status-1 exit. -/
def envExit1 : Env := { env0 with execa := fun _ _ _ => .err execaExit1 }

/-- A command-execution request for an executable that exits with 1. -/
def pFalseCmd : ActionParams := { command := some (.str "false") }

/-- The outcome object the command handler returns for that rejection. -/
def exit1Obj : JVal :=
  .obj [("stdout", .str ""), ("stderr", .str ""), ("exitCode", .num 1),
    ("failed", .bool true), ("timedOut", .bool false),
    ("isCanceled", .bool false),
    ("error", .str "Command failed with exit code 1: false")]

/-- C2 counterexample: a run that starts and exits with status 1 returns
a normal outcome with failed = true and exitCode = 1, but the outcome
object does carry a top-level error field — refuting the claim that no
top-level error is present. -/
theorem C2_counterexample_error_field_present :
    (handleExecuteCommand envExit1 pFalseCmd).1 = Except.ok exit1Obj ∧
    jGet exit1Obj "failed" = some (.bool true) ∧
    jGet exit1Obj "exitCode" = some (.num 1) ∧
    jGet exit1Obj "error" =
      some (.str "Command failed with exit code 1: false") :=
  ⟨rfl, rfl, rfl, rfl⟩

/-- C2 (amended): every execa rejection — non-zero exit, timeout, or
inability to start — is caught inside the command handler and returned
as a normal outcome object populated from the rejection fields (stdout,
stderr, exitCode, failed, timedOut, isCanceled) together with a
top-level error field holding the short failure message; the handler
never converts the rejection into a thrown error, so no dispatcher-level
error payload arises. A status-1 exit thus yields failed = true and
exitCode = 1 plus the error field. -/
theorem C2_amended_rejection_as_data (env : Env) (p : ActionParams)
    (e : ExecaErr) (hcmd : truthyCmd p.command = true)
    (hx : env.execa (p.command.getD (.str "")) (p.args.getD [])
        (execaOptions (p.options.getD [])) = .err e) :
    (handleExecuteCommand env p).1 =
      Except.ok (.obj [("stdout", jOptStr e.stdout), ("stderr", jOptStr e.stderr),
        ("exitCode", jOptNum e.exitCode), ("failed", .bool e.failed),
        ("timedOut", .bool e.timedOut), ("isCanceled", .bool e.isCanceled),
        ("error", .str (execaErrMsg e))]) := by
  simp [handleExecuteCommand, hcmd, hx]

/-- Witness for the amended C2 at the status-1 fixture. -/
theorem C2_amended_rejection_as_data_witness :
    truthyCmd pFalseCmd.command = true ∧
    (handleExecuteCommand envExit1 pFalseCmd).1 = Except.ok exit1Obj :=
  ⟨rfl, C2_amended_rejection_as_data envExit1 pFalseCmd execaExit1 rfl rfl⟩

/-- A filesystem existence query on a fresh state. -/
def pPathQuery : ActionParams :=
  { operation := some "pathExists", path := some "/x" }

/-- C3 counterexample: on the success path the serialized result is the
handler payload alone — its keys are exists and path, and neither the
request kind nor the parameters appear — refuting the claim that every
invocation echoes kind and parameters back. -/
theorem C3_counterexample_no_echo_on_success :
    (dispatch env0 [] "filesystem" pPathQuery).1 =
      Except.ok (.obj [("exists", .bool false), ("path", .str "/x")]) ∧
    call env0 [] "filesystem" pPathQuery =
      "\x7b\"exists\":false,\"path\":\"/x\"\x7d" ∧
    jKeys (.obj [("exists", .bool false), ("path", .str "/x")]) =
      ["exists", "path"] ∧
    jGet (.obj [("exists", .bool false), ("path", .str "/x")]) "actionType" =
      none ∧
    jGet (.obj [("exists", .bool false), ("path", .str "/x")]) "actionParams" =
      none :=
  ⟨rfl, rfl, rfl, rfl, rfl⟩

/-- C3 (amended): the kind and the original parameters are echoed back
only on the error path: when the dispatched handler throws, the call
returns the serialization of the error object whose keys, in order, are
error, details, actionType, actionParams (payload/error fields first,
then the kind, then the echoed parameters); the success path returns the
serialized handler payload alone, with no echo. -/
theorem C3_amended_echo_only_on_error (env : Env) (st : FS)
    (actionType : String) (p : ActionParams) :
    (∀ v, (dispatch env st actionType p).1 = Except.ok v →
       call env st actionType p = stringify v) ∧
    (∀ e, (dispatch env st actionType p).1 = Except.error e →
       call env st actionType p = stringify (errObj e actionType p) ∧
       jKeys (errObj e actionType p) =
         ["error", "details", "actionType", "actionParams"] ∧
       jGet (errObj e actionType p) "actionType" = some (.str actionType) ∧
       jGet (errObj e actionType p) "actionParams" = some p.toJVal) := by
  constructor
  · intro v h; simp [call, callTry, h]
  · intro e h; exact ⟨by simp [call, callTry, h], rfl, rfl, rfl⟩

/-- Witness for the amended C3: an unrecognized action kind makes the
dispatcher throw, and the echo appears in the documented key order. -/
theorem C3_amended_echo_only_on_error_witness :
    call env0 [] "bogus" {} =
      stringify (errObj (.thrown "Unsupported actionType: bogus") "bogus" {}) ∧
    jKeys (errObj (.thrown "Unsupported actionType: bogus") "bogus" {}) =
      ["error", "details", "actionType", "actionParams"] :=
  ⟨((C3_amended_echo_only_on_error env0 [] "bogus" {}).2
      (.thrown "Unsupported actionType: bogus") rfl).1,
   ((C3_amended_echo_only_on_error env0 [] "bogus" {}).2
      (.thrown "Unsupported actionType: bogus") rfl).2.1⟩

/-- C8: for a filesystem writeFile request with operation and path
present, the handler throws the missing-content error exactly when
content is absent (undefined); a supplied empty-string content is
accepted and, when the backing write succeeds, produces the success
marker carrying the path. -/
theorem C8_writeFile_missing_content (env : Env) (st : FS) (p : ActionParams)
    (hop : p.operation = some "writeFile") (hpath : truthyS p.path = true) :
    ((handleFilesystem env st p).1 =
        Except.error (.thrown "Missing \"content\" for writeFile") ↔
      p.content = none) ∧
    (p.content = some "" →
      env.writeFile (p.path.getD "") "" (p.encoding.getD "utf8") = none →
      (handleFilesystem env st p).1 =
        Except.ok (.obj [("success", .bool true), ("path", .str (p.path.getD "")),
          ("message", .str ("File " ++ p.path.getD "" ++ " written successfully."))])) := by
  constructor
  · constructor
    · intro h
      cases hc : p.content with
      | none => rfl
      | some c =>
          exfalso
          cases hw : env.writeFile (p.path.getD "") c (p.encoding.getD "utf8") with
          | none => simp +decide [handleFilesystem, hop, hpath, hc, hw] at h
          | some e2 => simp +decide [handleFilesystem, hop, hpath, hc, hw] at h
    · intro h; simp +decide [handleFilesystem, hop, hpath, h]
  · intro h hw; simp +decide [handleFilesystem, hop, hpath, h, hw]

/-- A writeFile request whose content is the empty string. -/
def pWriteEmpty : ActionParams :=
  { operation := some "writeFile", path := some "/tmp/a", content := some "" }

/-- Witness for C8: the empty-string content request succeeds with the
success marker, and the missing-content characterization instantiates. -/
theorem C8_writeFile_missing_content_witness :
    ((handleFilesystem env0 [] pWriteEmpty).1 =
        Except.error (.thrown "Missing \"content\" for writeFile") ↔
      pWriteEmpty.content = none) ∧
    (handleFilesystem env0 [] pWriteEmpty).1 =
      Except.ok (.obj [("success", .bool true), ("path", .str "/tmp/a"),
        ("message", .str "File /tmp/a written successfully.")]) :=
  ⟨(C8_writeFile_missing_content env0 [] pWriteEmpty rfl rfl).1,
   (C8_writeFile_missing_content env0 [] pWriteEmpty rfl rfl).2 rfl rfl⟩

/-- A docker exec interaction that creates and starts cleanly, streams
the given chunks to the end, and whose post-stream inspect reports the
given exit code. -/
def dockerRunToEnd (chunks : List String) (code : Int) : DockerExecEnv :=
  { createErr := none, startErr := none, noStream := false,
    stream := .ended chunks, inspectExec := .ok (some code) }

/-- C4: a container exec request that runs to stream end obtains its
exit code from the separate inspect call performed after the stream end
(the trace shows the inspect event strictly after the stream-end event,
and the exitCode field equals the inspected code), its stderr field is
not captured stderr text — it is the placeholder message exactly when
the inspected exit code is non-zero and the empty string when it is
zero — and all stream chunks are accumulated into the single combined
output field. -/
theorem C4_docker_exec_inspect_after_stream (env : Env) (p : ActionParams)
    (chunks : List String) (code : Int)
    (hop : p.operation = some "execInContainer")
    (hcid : truthyS p.containerId = true)
    (hcmd : truthyCmd p.command = true)
    (hdock : env.docker = dockerRunToEnd chunks code) :
    (handleDocker env p).1 =
      Except.ok (.obj [("output", .str (jsTrim (String.join chunks))),
        ("stderr", .str (if code = 0 then "" else dockerStderrPlaceholder)),
        ("exitCode", .num code)]) ∧
    (handleDocker env p).2 =
      [.dockerExecCreate (p.containerId.getD "") (cmdToArr (p.command.getD (.str ""))),
       .dockerExecStart, .dockerStreamEnd, .dockerInspectExec] ∧
    (jGet (.obj [("output", .str (jsTrim (String.join chunks))),
        ("stderr", .str (if code = 0 then "" else dockerStderrPlaceholder)),
        ("exitCode", .num code)]) "stderr" =
       some (.str dockerStderrPlaceholder) ↔ code ≠ 0) := by
  refine ⟨?_, ?_, ?_⟩ <;> by_cases hz : code = 0 <;>
    simp +decide [handleDocker, hop, hcid, hcmd, hdock, hz, jGet, jOptNum,
      dockerRunToEnd, dockerStderrPlaceholder, bne_iff_ne]

/-- An environment whose docker exec streams two chunks and whose
post-stream inspect reports exit code 1. -/
def envDockerExec : Env :=
  { env0 with docker := dockerRunToEnd ["hello ", "world"] 1 }

/-- A container exec request with a string command. -/
def pDockerExec : ActionParams :=
  { operation := some "execInContainer", containerId := some "c1",
    command := some (.str "ls -la") }

/-- Witness for C4: two chunks accumulate into the combined output, the
inspect call after stream end supplies exit code 1, and stderr is the
placeholder. -/
theorem C4_docker_exec_inspect_after_stream_witness :
    (handleDocker envDockerExec pDockerExec).1 =
      Except.ok (.obj [("output", .str "hello world"),
        ("stderr", .str dockerStderrPlaceholder), ("exitCode", .num 1)]) ∧
    (handleDocker envDockerExec pDockerExec).2 =
      [.dockerExecCreate "c1" ["ls", "-la"], .dockerExecStart,
       .dockerStreamEnd, .dockerInspectExec] := by
  have h := C4_docker_exec_inspect_after_stream envDockerExec pDockerExec
    ["hello ", "world"] 1 rfl rfl rfl rfl
  refine ⟨?_, ?_⟩
  · rw [h.1]; rfl
  · rw [h.2.1]; rfl

/-- C5: when scriptContent is supplied, the timestamp-named temporary
file is written before the interpreter runs, and on every path the
cleanup removal runs as the final step: if the write fails the handler
throws with no interpreter spawn; if the write succeeds the trace is
write, spawn, remove in that order, the result is exactly the
interpreter outcome — the same no matter how the removal behaves, so a
cleanup failure never masks the primary result — and when the removal
succeeds the temporary path is absent from the final state. -/
theorem C5_temp_script_lifecycle (env : Env) (st : FS) (p : ActionParams)
    (c : String) (hc : p.scriptContent = some c) (hne : c ≠ "") :
    (∀ e, env.writeFile (tempPath env.now) c "utf8" = some e →
       handlePythonScript env st p =
         (Except.error (.env e), st, [.fsWrite (tempPath env.now) c])) ∧
    (env.writeFile (tempPath env.now) c "utf8" = none →
       (handlePythonScript env st p).2.2 =
         [.fsWrite (tempPath env.now) c,
          .spawn (.str "python3") (tempPath env.now :: p.args.getD []),
          .fsRemove (tempPath env.now)] ∧
       (handlePythonScript env st p).1 =
         Except.ok (pyRunResult (env.execa (.str "python3")
           (tempPath env.now :: p.args.getD []) [])) ∧
       (env.remove (tempPath env.now) = none →
         fsHas (handlePythonScript env st p).2.1 (tempPath env.now) = false)) := by
  have ht : truthyS (some c) = true := truthyS_some_of_ne hne
  refine ⟨?_, ?_⟩
  · intro e he
    simp [handlePythonScript, hc, ht, he]
  · intro hw
    cases hr : env.remove (tempPath env.now) with
    | some e2 =>
        refine ⟨by simp [handlePythonScript, hc, ht, hw, hr],
          by simp [handlePythonScript, hc, ht, hw, hr], ?_⟩
        intro h0
        exact Option.noConfusion h0
    | none =>
        refine ⟨by simp [handlePythonScript, hc, ht, hw, hr],
          by simp [handlePythonScript, hc, ht, hw, hr], ?_⟩
        intro _
        have hst : (handlePythonScript env st p).2.1 =
            fsDel (fsAdd st (tempPath env.now)) (tempPath env.now) := by
          simp [handlePythonScript, hc, ht, hw, hr]
        rw [hst]
        exact fsHas_fsDel _ _

/-- An inline script request. -/
def pPyInline : ActionParams := { scriptContent := some "print(1)" }

/-- An environment at time 42 whose interpreter run fails with status 1
(the script raises), with the filesystem cooperating. -/
def envPy : Env := { env0 with now := 42, execa := fun _ _ _ => .err execaExit1 }

/-- Witness for C5 on the failure path: the script run fails, yet the
trace is write, spawn, remove, the outcome is the interpreter outcome,
and the temporary file is absent from the final state. -/
theorem C5_temp_script_lifecycle_witness :
    (handlePythonScript envPy [] pPyInline).2.2 =
      [.fsWrite (tempPath 42) "print(1)",
       .spawn (.str "python3") [tempPath 42],
       .fsRemove (tempPath 42)] ∧
    (handlePythonScript envPy [] pPyInline).1 = Except.ok (pyErrObj execaExit1) ∧
    fsHas (handlePythonScript envPy [] pPyInline).2.1 (tempPath 42) = false := by
  have h := (C5_temp_script_lifecycle envPy [] pPyInline "print(1)" rfl
    (by decide)).2 rfl
  exact ⟨h.1, h.2.1, h.2.2 rfl⟩

/-- C9: an empty-string scriptContent is treated as absent: the
invocation behaves identically to one with no scriptContent at all (in
particular no temporary file is written), the scriptPath is used instead
when present and nonempty, and when scriptPath is also absent the
missing-input validation error is raised — the documented precedence of
scriptContent over scriptPath holds only for nonempty scriptContent. -/
theorem C9_empty_scriptContent_treated_absent (env : Env) (st : FS)
    (p : ActionParams) (h : p.scriptContent = some "") :
    handlePythonScript env st p =
      handlePythonScript env st { p with scriptContent := none } ∧
    hasFsWrite (handlePythonScript env st p).2.2 = false ∧
    (∀ sp, p.scriptPath = some sp → sp ≠ "" →
       (handlePythonScript env st p).2.2 =
         [.spawn (.str "python3") (sp :: p.args.getD [])]) ∧
    (p.scriptPath = none →
       (handlePythonScript env st p).1 =
         Except.error (.thrown "Missing \"scriptContent\" (direct script) or \"scriptPath\" for pythonScript action")) := by
  refine ⟨?_, ?_, ?_, ?_⟩
  · simp [handlePythonScript, h, truthyS_some_empty, truthyS_none]
  · cases ht : truthyS p.scriptPath <;>
      simp [handlePythonScript, h, truthyS_some_empty, ht, hasFsWrite]
  · intro sp hsp hne
    simp [handlePythonScript, h, truthyS_some_empty, hsp,
      truthyS_some_of_ne hne]
  · intro h4
    simp [handlePythonScript, h, h4, truthyS_some_empty, truthyS_none]

/-- A script request with empty inline content and a script path. -/
def pPyEmptyContent : ActionParams :=
  { scriptContent := some "", scriptPath := some "/app/s.py" }

/-- Witness for C9: the empty-content request equals the absent-content
request and spawns the interpreter on the script path. -/
theorem C9_empty_scriptContent_treated_absent_witness :
    handlePythonScript env0 [] pPyEmptyContent =
      handlePythonScript env0 [] { pPyEmptyContent with scriptContent := none } ∧
    (handlePythonScript env0 [] pPyEmptyContent).2.2 =
      [.spawn (.str "python3") ["/app/s.py"]] := by
  have h := C9_empty_scriptContent_treated_absent env0 [] pPyEmptyContent rfl
  exact ⟨h.1, h.2.2.1 "/app/s.py" rfl (by decide)⟩

/-- C10: a falsy password (absent or empty) together with a falsy
privateKey — or an empty supplied host, username, or command — makes the
ssh handler raise the missing-parameters validation error before any
connection attempt: a supplied empty string counts as missing under the
JavaScript truthiness check. -/
theorem C10_ssh_falsy_fields_rejected (env : Env) (p : ActionParams)
    (h : (falsyS p.password ∧ falsyS p.privateKey) ∨ falsyS p.host ∨
      falsyS p.username ∨ p.command = some (.str "")) :
    (handleSsh env p).1 =
      Except.error (.thrown "Missing required SSH parameters (host, username, auth method, command)") ∧
    hasSshConnect (handleSsh env p).2 = false := by
  have hcond : (!(truthyS p.host) || !(truthyS p.username)
      || (!(truthyS p.password) && !(truthyS p.privateKey))
      || !(truthyCmd p.command)) = true := by
    rcases h with ⟨h1, h2⟩ | hh | hu | hc
    · simp [truthyS_falsy h1, truthyS_falsy h2]
    · simp [truthyS_falsy hh]
    · simp [truthyS_falsy hu]
    · simp [hc, truthyCmd]
  simp [handleSsh, hcond, hasSshConnect]

/-- A remote-shell request whose password field is supplied but empty
and whose privateKey is absent. -/
def pSshEmptyPassword : ActionParams :=
  { host := some "examplehost", username := some "alice",
    password := some "", command := some (.str "ls") }

/-- Witness for C10: the empty-password request is rejected with the
validation error and no connection is attempted. -/
theorem C10_ssh_falsy_fields_rejected_witness :
    (handleSsh env0 pSshEmptyPassword).1 =
      Except.error (.thrown "Missing required SSH parameters (host, username, auth method, command)") ∧
    hasSshConnect (handleSsh env0 pSshEmptyPassword).2 = false :=
  C10_ssh_falsy_fields_rejected env0 pSshEmptyPassword
    (Or.inl ⟨Or.inr rfl, Or.inl rfl⟩)

end AgentExecutorNode
